import Mathlib

/-!
Verification development for the TrustAid chat frontend
(`src/trustaid-frontend/src/App.tsx` and the unnamed earlier variant
`src/unnamed/part_002`).  The pure helpers (`formatAssistantText`,
`formatCell`, `rowsToObjects`), the demo responders (`mockResponse` in both
variants) and the conversation controller (`send`) are embedded as
executable Lean definitions; JavaScript `null`/`undefined` is modelled with
`Option`, JS string falsiness (`x || y`) with explicit helpers, and the
asynchronous network call as an explicit outcome argument.
-/

/-- JS value that can appear in a table cell: `null`, `undefined`, a number
or a string.  (All numbers occurring in the sources are integers.) -/
inductive Cell where
  | null : Cell
  | undef : Cell
  | num : Int → Cell
  | str : String → Cell
deriving DecidableEq, Repr

/-- A step of a navigator payload (`{ title, link?, deadline? }`). -/
structure Step where
  title : String
  link : Option String := none
  deadline : Option String := none
deriving DecidableEq, Repr

/-- A citation of a navigator payload. -/
structure Evidence where
  title : String
  url : Option String := none
  source : Option String := none
  updated_at : Option String := none
  similarity : Option ℚ := none
deriving DecidableEq, Repr

/-- Confidence descriptor (`{ level, score }`). -/
structure Confidence where
  level : String
  score : ℚ
deriving DecidableEq, Repr

/-- Tabular data of a trustbot payload; `columns` and `rows` are optional
because the JS code guards them (`!table?.columns || !table?.rows`). -/
structure Table where
  columns : Option (List String) := none
  rows : Option (List (List Cell)) := none
deriving DecidableEq, Repr

/-- Chart descriptor of a trustbot payload. -/
structure Chart where
  type : String
  x : String
  y : String
deriving DecidableEq, Repr

/-- Dataset descriptor of a trustbot payload. -/
structure Dataset where
  name : String
  period : Option String := none
  last_updated : Option String := none
deriving DecidableEq, Repr

/-- A backend response payload: a loosely shaped JS object tagged by `kind`;
every field except the discriminator is optional, matching the code's
tolerance of absent fields. -/
structure Payload where
  kind : String
  answer : Option String := none
  steps : Option (List Step) := none
  evidence : Option (List Evidence) := none
  table : Option Table := none
  chart : Option Chart := none
  sql : Option String := none
  dataset : Option Dataset := none
  confidence : Option Confidence := none
  audit_id : Option String := none
deriving DecidableEq, Repr

/-- Pipeline preference setting (`"auto" | "navigator" | "trustbot"`). -/
inductive PipelinePref where
  | auto : PipelinePref
  | navigator : PipelinePref
  | trustbot : PipelinePref
deriving DecidableEq, Repr

/-- Role of a transcript entry. -/
inductive Role where
  | user : Role
  | assistant : Role
  | system : Role
deriving DecidableEq, Repr

/-- One transcript entry (`ChatItem` in the sources). -/
structure ChatItem where
  role : Role
  content : String
  payload : Option Payload := none
deriving DecidableEq, Repr

/-- Modelled JS `String.prototype.trim`: drop whitespace from both ends. -/
def jsTrim (s : String) : String :=
  String.mk (((s.data.dropWhile Char.isWhitespace).reverse.dropWhile Char.isWhitespace).reverse)

/-- JS `a || b` for an optional string `a`: `null`/`undefined` and the empty
string are falsy. -/
def jsOrS (a : Option String) (d : String) : String :=
  match a with
  | none => d
  | some s => if s = "" then d else s

/-- JS `a || b` for a plain string `a` (only `""` is falsy). -/
def jsOrStr (s d : String) : String :=
  if s = "" then d else s

/-- JS optional chain `data?.kind`. -/
def kindOf (d : Option Payload) : Option String :=
  d.map Payload.kind

/-- Substring test used to model regular-expression alternatives that are
plain words: does `needle` start `hay`? -/
def beginsWith : List Char → List Char → Bool
  | _, [] => true
  | [], _ :: _ => false
  | a :: as, b :: bs => a = b && beginsWith as bs

/-- Does `needle` occur contiguously anywhere in `hay`? -/
def containsSeq : List Char → List Char → Bool
  | [], needle => needle.isEmpty
  | a :: t, needle => beginsWith (a :: t) needle || containsSeq t needle

/-- Model of the regex piece `q\d`: a `q` immediately followed by a digit. -/
def hasQDigit : List Char → Bool
  | a :: b :: t => (a = 'q' && b.isDigit) || hasQDigit (b :: t)
  | _ => false

/-- Model of the regex piece `\d+%`: a digit immediately followed by `%`. -/
def hasDigitPercent : List Char → Bool
  | a :: b :: t => (a.isDigit && b = '%') || hasDigitPercent (b :: t)
  | _ => false

/-- The bereavement test of `mockResponse` in `App.tsx`:
`/die|passed away|bereave|death/i.test(q)`; case-insensitivity is modelled
by lowering the query first. -/
def bereavMatch (q : String) : Bool :=
  let l := q.data.map Char.toLower
  containsSeq l "die".data || containsSeq l "passed away".data ||
  containsSeq l "bereave".data || containsSeq l "death".data

/-- The aggregation-keyword test of `mockResponse` in `part_002`:
`/top|average|median|quarter|q\d|amount|sum|\d+%|how many|show/i.test(q)`. -/
def aggMatch (q : String) : Bool :=
  let l := q.data.map Char.toLower
  containsSeq l "top".data || containsSeq l "average".data ||
  containsSeq l "median".data || containsSeq l "quarter".data ||
  hasQDigit l || containsSeq l "amount".data || containsSeq l "sum".data ||
  hasDigitPercent l || containsSeq l "how many".data ||
  containsSeq l "show".data

/-- The demo responder of `src/trustaid-frontend/src/App.tsx`
(`mockResponse(q)`): a bereavement-matching query yields the canned
bereavement navigator payload, everything else the generic navigator plan.
The random `genId()` result is passed in as `auditId`. -/
def mockResponse (q : String) (auditId : String) : Payload :=
  if bereavMatch q then
    { kind := "navigator"
      answer := some "I’m sorry for your loss. Here is a simple plan after a death:"
      steps := some
        [⟨"Register the death", some "https://www.servicesaustralia.gov.au/when-someone-dies", none⟩,
         ⟨"Organise the funeral", some "https://www.service.nsw.gov.au/death-and-bereavement", none⟩,
         ⟨"Notify people and organisations", none, none⟩]
      evidence := some
        [{ title := "When someone dies — Services Australia",
           url := some "https://www.servicesaustralia.gov.au/when-someone-dies",
           updated_at := some "2025-06-01" },
         { title := "Death and bereavement — Service NSW",
           url := some "https://www.service.nsw.gov.au/",
           updated_at := some "2025-05-12" }]
      confidence := some ⟨"high", 0.86⟩
      audit_id := some auditId }
  else
    { kind := "navigator"
      answer := some "Here’s what to do:"
      steps := some
        [⟨"Check eligibility", none, none⟩,
         ⟨"Prepare documents", none, none⟩,
         ⟨"Apply online", none, none⟩]
      evidence := some []
      confidence := some ⟨"medium", 0.6⟩
      audit_id := some auditId }

/-- The demo responder of `src/unnamed/part_002` (`mockResponse(q, pref)`):
routes to a canned trustbot payload when the preference is `trustbot` or the
query matches the aggregation keywords, otherwise to a canned navigator
payload.  `genId()` and `new Date().toISOString()` are passed in as
`auditId` and `nowIso`. -/
def mockResponseP2 (q : String) (pref : PipelinePref) (auditId nowIso : String) : Payload :=
  let wantTrust := pref = PipelinePref.trustbot ∨ aggMatch q
  if wantTrust then
    { kind := "trustbot"
      answer := some "Top vendor payments in 2023–24 Q2 (≥ $500k)."
      table := some
        { columns := some ["vendor", "amount", "date", "category"]
          rows := some
            [[Cell.str "Acme Pty Ltd", Cell.num 830000, Cell.str "2024-02-13", Cell.str "IT"],
             [Cell.str "Koala Tech", Cell.num 790000, Cell.str "2024-03-29", Cell.str "Services"],
             [Cell.str "Wattle Solutions", Cell.num 670000, Cell.str "2024-01-19", Cell.str "Consulting"]] }
      chart := some ⟨"bar", "vendor", "amount"⟩
      sql := some "SELECT vendor, amount, paid_at as date, category FROM procurement_payments WHERE amount >= 500000 AND quarter=\x272023-24 Q2\x27 ORDER BY amount DESC LIMIT 10;"
      dataset := some ⟨"AusTender Demo", some "2023-07-01..2024-06-30", some nowIso⟩
      confidence := some ⟨"exact", 1⟩
      audit_id := some auditId }
  else
    { kind := "navigator"
      answer := some "Based on official sources, here is a simple plan to arrange home care after hospital discharge:"
      steps := some
        [⟨"Book a My Aged Care assessment", some "https://www.myagedcare.gov.au/", none⟩,
         ⟨"Prepare medical summary & ID documents", some "https://www.healthdirect.gov.au/", none⟩,
         ⟨"Explore interim respite services in your LGA", none, none⟩]
      evidence := some
        [{ title := "Home Care Packages (My Aged Care)",
           url := some "https://www.myagedcare.gov.au/home-care-package",
           updated_at := some "2025-06-01", similarity := some 0.82 },
         { title := "Carer Allowance (Services Australia)",
           url := some "https://www.servicesaustralia.gov.au/carer-allowance",
           updated_at := some "2025-05-12", similarity := some 0.76 }]
      confidence := some ⟨"high", 0.84⟩
      audit_id := some auditId }

/-- The fallback-text formatter of `App.tsx` (`formatAssistantText(data)`):
the argument is optional because the code reads the discriminator through
the optional chain `data?.kind`. -/
def formatAssistantText : Option Payload → String
  | none => ""
  | some data =>
    if data.kind = "navigator" then
      let title := jsOrS data.answer "Here are the recommended steps:"
      let steps := String.intercalate "\n"
        (((data.steps.getD []).enum).map
          (fun p => toString (p.1 + 1) ++ ". " ++ p.2.title))
      title ++ "\n" ++ steps
    else if data.kind = "trustbot" then
      jsOrS data.answer "Here are the results with SQL shown."
    else ""

/-- Group the reversed digit list of a number into blocks of three,
inserting the `en` locale separator; models `Intl.NumberFormat().format`. -/
def grpRev : List Char → List Char
  | a :: b :: c :: d :: t => a :: b :: c :: ',' :: grpRev (d :: t)
  | l => l

/-- Modelled `Intl.NumberFormat().format` for integers: default-locale
(`en`) thousands grouping with `,`. -/
def intlFormat (n : Int) : String :=
  let ds := (toString n.natAbs).data
  (if n < 0 then "-" else "") ++ String.mk (grpRev ds.reverse).reverse

/-- The cell formatter of `App.tsx`/`part_002` (`formatCell(val)`):
`null`/`undefined` render as the placeholder glyph, numbers with locale
grouping, everything else via `String(val)`. -/
def formatCell : Cell → String
  | Cell.null => "—"
  | Cell.undef => "—"
  | Cell.num n => intlFormat n
  | Cell.str s => s

/-- The row-object projection of `App.tsx`/`part_002` (`rowsToObjects(table)`):
zips the column names with each row's positional values; a JS object is
modelled as an association list in column order, and an out-of-range index
(`r[i]` past the row's end) gives `undefined`. -/
def rowsToObjects (table : Option Table) : List (List (String × Cell)) :=
  match table with
  | none => []
  | some t =>
    match t.columns, t.rows with
    | some cols, some rows =>
      rows.map (fun r => cols.enum.map (fun p => (p.2, (r.get? p.1).getD Cell.undef)))
    | some _, none => []
    | none, _ => []

/-- The persisted widget settings (API base, demo-mode flag, pipeline
preference). -/
structure Settings where
  apiBase : String
  demoMode : Bool
  pipelinePref : PipelinePref
deriving DecidableEq, Repr

/-- The mutable controller state of `AssistantWidget` in `App.tsx`:
transcript, busy flag, ambient error slot and the input buffer. -/
structure AppState where
  messages : List ChatItem
  busy : Bool
  error : Option String
  query : String
deriving DecidableEq, Repr

/-- The body `POST`ed to `{apiBase}/chat/query`: the query text and, only
when the preference is not `auto`, the forced kind. -/
structure Request where
  query : String
  force_kind : Option PipelinePref
deriving DecidableEq, Repr

/-- One dispatch of the responder: either the live HTTP request or an
invocation of the demo responder. -/
inductive Dispatch where
  | live : Request → Dispatch
  | demo : String → Dispatch
deriving DecidableEq, Repr

/-- Outcome of the awaited live request, collapsing the three failure modes
of the code (fetch rejection, `!res.ok` throwing `HTTP {status}`, and
`res.json()` rejection) into one failure message, exactly as the single
`catch` block does.  A successful body that is not an object with a `kind`
is modelled as `ok none`. -/
inductive NetResult where
  | ok : Option Payload → NetResult
  | fail : String → NetResult
deriving DecidableEq, Repr

/-- The synthetic follow-up entry appended after navigator responses. -/
def summaryPromptEntry : ChatItem :=
  { role := Role.assistant
    content := "Would you like a quick summary of the steps?"
    payload := some { kind := "summary_prompt" } }

/-- The generic error entry appended by the `catch` block. -/
def errorEntry : ChatItem :=
  { role := Role.assistant
    content := "Sorry, something went wrong. Please try again."
    payload := some { kind := "error" } }

/-- The assistant entries appended on a successful response: the payload
entry, plus the follow-up prompt exactly when `data?.kind === "navigator"`. -/
def successEntries (data : Option Payload) : List ChatItem :=
  [{ role := Role.assistant, content := formatAssistantText data, payload := data }] ++
  (if kindOf data = some "navigator" then [summaryPromptEntry] else [])

/-- The `send(payloadQuery?)` handler of `AssistantWidget` in `App.tsx`,
as a pure transition on the controller state.  `payloadQuery` is the
optional explicit argument (`payloadQuery ?? query`), `auditId` stands for
the random `genId()` drawn by the demo responder, and `net` is the outcome
of the awaited live request (unused in demo mode, where no request is
made).  The result pairs the final state — `busy` is `false` again because
the `finally` block always clears it — with the list of dispatches issued. -/
def send (env : Settings) (s : AppState) (payloadQuery : Option String)
    (auditId : String) (net : NetResult) : AppState × List Dispatch :=
  let text := jsTrim (payloadQuery.getD s.query)
  if text = "" ∨ s.busy then (s, [])
  else
    let s1 : AppState :=
      { messages := s.messages ++ [{ role := Role.user, content := text }]
        busy := true, error := none, query := "" }
    if env.demoMode then
      let data : Option Payload := some (mockResponse text auditId)
      ({ s1 with messages := s1.messages ++ successEntries data, busy := false },
       [Dispatch.demo text])
    else
      let req : Request :=
        { query := text
          force_kind := if env.pipelinePref = PipelinePref.auto then none
                        else some env.pipelinePref }
      match net with
      | NetResult.ok data =>
        ({ s1 with messages := s1.messages ++ successEntries data, busy := false },
         [Dispatch.live req])
      | NetResult.fail msg =>
        ({ s1 with messages := s1.messages ++ [errorEntry],
                   error := some (jsOrStr msg "Request failed"), busy := false },
         [Dispatch.live req])

/-- The response payload a successful `send` renders: the demo responder's
payload in demo mode, otherwise the parsed live body. -/
def respOf (env : Settings) (text auditId : String) (data : Option Payload) : Option Payload :=
  if env.demoMode then some (mockResponse text auditId) else data

/-- Does a transcript entry carry an error payload? -/
def isErrorItem (e : ChatItem) : Bool :=
  match e.payload with
  | some p => p.kind == "error"
  | none => false

/-- Numbered plain-text lines for step titles, numbering from `n`; this is
the specification-side reading of "a numbered plain-text list of the step
titles". -/
def numberedTitleLines : Nat → List Step → List String
  | _, [] => []
  | n, s :: t => (toString n ++ ". " ++ s.title) :: numberedTitleLines (n + 1) t

/-- Specification-side numbered rendering of step titles, numbered from 1
and joined with newlines. -/
def numberedTitles (steps : List Step) : String :=
  String.intercalate "\n" (numberedTitleLines 1 steps)

/-- Demo-mode settings fixture. -/
def env0 : Settings :=
  { apiBase := "http://localhost:8000", demoMode := true, pipelinePref := PipelinePref.auto }

/-- Live-mode settings fixture. -/
def envLive : Settings :=
  { apiBase := "http://localhost:8000", demoMode := false, pipelinePref := PipelinePref.auto }

/-- Idle controller state fixture with input buffer `"hello"`. -/
def state0 : AppState :=
  { messages := [], busy := false, error := none, query := "hello" }

/-- Busy controller state fixture. -/
def busyState0 : AppState :=
  { messages := [], busy := true, error := none, query := "hi" }

/-- Titles numbered via `enumFrom` (as the code does with `.map((s, i) =>
...)`) agree with the direct numbered rendering. -/
theorem enumFrom_map_titles (k : Nat) (l : List Step) :
    (List.enumFrom k l).map (fun p => toString (p.1 + 1) ++ ". " ++ p.2.title)
      = numberedTitleLines (k + 1) l := by
  induction l generalizing k with
  | nil => rfl
  | cons s t ih =>
    simp only [List.enumFrom, List.map_cons, numberedTitleLines]
    rw [ih]

/-- Every entry of `successEntries` carries the assistant role. -/
theorem successEntries_role (data : Option Payload) :
    ∀ e ∈ successEntries data, e.role = Role.assistant := by
  intro e he
  unfold successEntries at he
  rcases List.mem_append.mp he with h | h
  · simp_all
  · by_cases hk : kindOf data = some "navigator" <;> simp_all [summaryPromptEntry]

/-- C1: for every query matching the aggregation keyword set, the
`part_002` demo responder under preference `auto` returns a `trustbot`
payload whose table has at least one row. -/
theorem mockResponseP2_agg_trustbot (q auditId nowIso : String)
    (h : aggMatch q = true) :
    (mockResponseP2 q PipelinePref.auto auditId nowIso).kind = "trustbot" ∧
    ∃ rows : List (List Cell),
      ((mockResponseP2 q PipelinePref.auto auditId nowIso).table.bind Table.rows) = some rows ∧
      0 < rows.length := by
  unfold mockResponseP2
  rw [if_pos (Or.inr h)]
  exact ⟨rfl, _, rfl, by decide⟩

/-- Witness for C1 at the sample query of the specification. -/
theorem mockResponseP2_agg_trustbot_witness :
    (mockResponseP2 "show top vendor payments this quarter" PipelinePref.auto "id0" "t0").kind = "trustbot" ∧
    ∃ rows : List (List Cell),
      ((mockResponseP2 "show top vendor payments this quarter" PipelinePref.auto "id0" "t0").table.bind Table.rows) = some rows ∧
      0 < rows.length :=
  mockResponseP2_agg_trustbot "show top vendor payments this quarter" "id0" "t0" (by decide)

/-- C2 counterexample: with the preference forced to `navigator`, the
`part_002` demo responder still returns a `trustbot` payload for a
keyword-matching query, so a forced kind is not honored. -/
theorem mockResponseP2_forced_navigator_counterexample :
    (mockResponseP2 "show top vendor payments this quarter" PipelinePref.navigator "id0" "t0").kind ≠ "navigator" := by
  decide

/-- C2 amended: the `part_002` demo responder returns `trustbot` exactly
when the preference is `trustbot` or the query matches the aggregation
keywords (so `navigator` preference does not override keyword matching),
and the `App.tsx` demo responder ignores the preference entirely, always
returning a `navigator` payload. -/
theorem mockResponse_routing (q : String) (pref : PipelinePref) (auditId nowIso : String) :
    ((mockResponseP2 q pref auditId nowIso).kind
       = if pref = PipelinePref.trustbot ∨ aggMatch q = true then "trustbot" else "navigator") ∧
    (mockResponse q auditId).kind = "navigator" := by
  constructor
  · unfold mockResponseP2
    by_cases h : pref = PipelinePref.trustbot ∨ aggMatch q = true
    · rw [if_pos h, if_pos h]
    · rw [if_neg h, if_neg h]
  · unfold mockResponse
    split <;> rfl

/-- C7: for every query matching the bereavement pattern, the `App.tsx`
demo responder returns a `navigator` payload with a non-empty steps list
whose first title is "Register the death". -/
theorem mockResponse_bereavement (q auditId : String)
    (h : bereavMatch q = true) :
    (mockResponse q auditId).kind = "navigator" ∧
    ∃ steps : List Step, (mockResponse q auditId).steps = some steps ∧
      steps ≠ [] ∧ steps.head?.map Step.title = some "Register the death" := by
  unfold mockResponse
  rw [if_pos h]
  exact ⟨rfl, _, rfl, by decide, rfl⟩

/-- Witness for C7 at the sample query of the specification. -/
theorem mockResponse_bereavement_witness :
    (mockResponse "what to do when someone dies" "id0").kind = "navigator" ∧
    ∃ steps : List Step, (mockResponse "what to do when someone dies" "id0").steps = some steps ∧
      steps ≠ [] ∧ steps.head?.map Step.title = some "Register the death" :=
  mockResponse_bereavement "what to do when someone dies" "id0" (by decide)

/-- C9: the sample table projects to the expected row objects, `null` and
`undefined` cells render as the placeholder glyph (never the text
"undefined"), and numeric cells are rendered with locale grouping. -/
theorem table_projection_and_cell_formatting :
    rowsToObjects (some { columns := some ["a", "b"], rows := some [[Cell.num 1, Cell.null]] })
      = [[("a", Cell.num 1), ("b", Cell.null)]] ∧
    formatCell Cell.null = "—" ∧
    formatCell Cell.undef = "—" ∧
    formatCell Cell.null ≠ "undefined" ∧
    formatCell Cell.undef ≠ "undefined" ∧
    (∀ n : Int, formatCell (Cell.num n) = intlFormat n) ∧
    formatCell (Cell.num 1) = "1" ∧
    formatCell (Cell.num 830000) = "830,000" :=
  ⟨by decide, rfl, rfl, by decide, by decide, fun _ => rfl, by decide, by decide⟩

/-- C10: the fallback-text formatter returns the empty string on an absent
(`null`/`undefined`) payload because the discriminator is read through the
optional chain `data?.kind`. -/
theorem formatAssistantText_none_total : formatAssistantText none = "" := rfl

/-- Unfolding equation of `formatAssistantText` on a present payload. -/
theorem formatAssistantText_some (data : Payload) :
    formatAssistantText (some data)
      = if data.kind = "navigator" then
          jsOrS data.answer "Here are the recommended steps:" ++ "\n"
            ++ String.intercalate "\n"
                ((data.steps.getD []).enum.map
                  (fun p => toString (p.1 + 1) ++ ". " ++ p.2.title))
        else if data.kind = "trustbot" then
          jsOrS data.answer "Here are the results with SQL shown."
        else "" := rfl

/-- C8: the fallback-text formatter returns, for `navigator`, the narrative
answer (or the generic header when it is absent/empty) concatenated with the
numbered plain-text list of step titles; for `trustbot`, the answer or the
generic placeholder; and the empty string for every other kind. -/
theorem formatAssistantText_by_kind (p : Payload) :
    (p.kind = "navigator" →
      formatAssistantText (some p)
        = jsOrS p.answer "Here are the recommended steps:" ++ "\n"
            ++ numberedTitles (p.steps.getD [])) ∧
    (p.kind = "trustbot" →
      formatAssistantText (some p) = jsOrS p.answer "Here are the results with SQL shown.") ∧
    (p.kind ≠ "navigator" → p.kind ≠ "trustbot" → formatAssistantText (some p) = "") := by
  refine ⟨fun h => ?_, fun h => ?_, fun h1 h2 => ?_⟩
  · rw [formatAssistantText_some, if_pos h]
    unfold List.enum
    rw [enumFrom_map_titles 0]
    rfl
  · rw [formatAssistantText_some, if_neg (by rw [h]; decide), if_pos h]
  · rw [formatAssistantText_some, if_neg h1, if_neg h2]

/-- Witness for C8 on a concrete navigator payload. -/
theorem formatAssistantText_by_kind_witness :
    formatAssistantText (some
        { kind := "navigator", answer := some "Here’s what to do:",
          steps := some [⟨"Check eligibility", none, none⟩, ⟨"Prepare documents", none, none⟩] })
      = "Here’s what to do:\n1. Check eligibility\n2. Prepare documents" := by
  rw [(formatAssistantText_by_kind _).1 rfl]
  decide

/-- C4: submit is a no-op when the controller is busy or the effective text
is empty after trimming: the state (transcript, error slot, input buffer)
is returned unchanged and no dispatch — live or demo — is issued. -/
theorem send_noop_when_busy_or_empty (env : Settings) (s : AppState)
    (pq : Option String) (auditId : String) (net : NetResult)
    (h : s.busy = true ∨ jsTrim (pq.getD s.query) = "") :
    send env s pq auditId net = (s, []) := by
  unfold send
  rcases h with h | h
  · rw [if_pos (Or.inr (by rw [h]))]
  · rw [if_pos (Or.inl h)]

/-- Witness for C4 at a busy state. -/
theorem send_noop_when_busy_or_empty_witness :
    send env0 busyState0 none "id0" (NetResult.ok none) = (busyState0, []) :=
  send_noop_when_busy_or_empty env0 busyState0 none "id0" (NetResult.ok none) (Or.inl rfl)

/-- Characterization of an active (non-no-op) `send` in demo mode. -/
theorem send_demo_eq (env : Settings) (s : AppState) (pq : Option String)
    (auditId : String) (net : NetResult)
    (htext : jsTrim (pq.getD s.query) ≠ "") (hbusy : s.busy = false)
    (hd : env.demoMode = true) :
    send env s pq auditId net
      = ({ messages := s.messages ++ [{ role := Role.user, content := jsTrim (pq.getD s.query) }]
             ++ successEntries (some (mockResponse (jsTrim (pq.getD s.query)) auditId)),
           busy := false, error := none, query := "" },
         [Dispatch.demo (jsTrim (pq.getD s.query))]) := by
  have hcond : ¬(jsTrim (pq.getD s.query) = "" ∨ s.busy = true) := by
    simp [htext, hbusy]
  simp only [send]
  rw [if_neg hcond, hd]
  rfl

/-- Characterization of an active `send` in live mode with a successful
response. -/
theorem send_live_ok_eq (env : Settings) (s : AppState) (pq : Option String)
    (auditId : String) (data : Option Payload)
    (htext : jsTrim (pq.getD s.query) ≠ "") (hbusy : s.busy = false)
    (hd : env.demoMode = false) :
    send env s pq auditId (NetResult.ok data)
      = ({ messages := s.messages ++ [{ role := Role.user, content := jsTrim (pq.getD s.query) }]
             ++ successEntries data,
           busy := false, error := none, query := "" },
         [Dispatch.live
            { query := jsTrim (pq.getD s.query)
              force_kind := if env.pipelinePref = PipelinePref.auto then none
                            else some env.pipelinePref }]) := by
  have hcond : ¬(jsTrim (pq.getD s.query) = "" ∨ s.busy = true) := by
    simp [htext, hbusy]
  simp only [send]
  rw [if_neg hcond, hd]
  rfl

/-- Characterization of an active `send` in live mode with a transport
failure. -/
theorem send_live_fail_eq (env : Settings) (s : AppState) (pq : Option String)
    (auditId msg : String)
    (htext : jsTrim (pq.getD s.query) ≠ "") (hbusy : s.busy = false)
    (hd : env.demoMode = false) :
    send env s pq auditId (NetResult.fail msg)
      = ({ messages := s.messages ++ [{ role := Role.user, content := jsTrim (pq.getD s.query) }]
             ++ [errorEntry],
           busy := false, error := some (jsOrStr msg "Request failed"), query := "" },
         [Dispatch.live
            { query := jsTrim (pq.getD s.query)
              force_kind := if env.pipelinePref = PipelinePref.auto then none
                            else some env.pipelinePref }]) := by
  have hcond : ¬(jsTrim (pq.getD s.query) = "" ∨ s.busy = true) := by
    simp [htext, hbusy]
  simp only [send]
  rw [if_neg hcond, hd]
  rfl

/-- C5: for every non-empty trimmed effective text with the controller
idle, `send` appends exactly one user entry carrying the trimmed text ahead
of whatever assistant entries follow, and issues exactly one dispatch. -/
theorem send_appends_one_user_entry (env : Settings) (s : AppState)
    (pq : Option String) (auditId : String) (net : NetResult)
    (htext : jsTrim (pq.getD s.query) ≠ "") (hbusy : s.busy = false) :
    ∃ rest : List ChatItem,
      (send env s pq auditId net).1.messages
        = s.messages ++ { role := Role.user, content := jsTrim (pq.getD s.query) } :: rest ∧
      (∀ e ∈ rest, e.role = Role.assistant) ∧
      (send env s pq auditId net).2.length = 1 := by
  cases hd : env.demoMode with
  | true =>
    rw [send_demo_eq env s pq auditId net htext hbusy hd]
    exact ⟨successEntries (some (mockResponse (jsTrim (pq.getD s.query)) auditId)),
      by simp, successEntries_role _, rfl⟩
  | false =>
    cases net with
    | ok data =>
      rw [send_live_ok_eq env s pq auditId data htext hbusy hd]
      exact ⟨successEntries data, by simp, successEntries_role _, rfl⟩
    | fail msg =>
      rw [send_live_fail_eq env s pq auditId msg htext hbusy hd]
      exact ⟨[errorEntry], by simp, by simp [errorEntry], rfl⟩

/-- Witness for C5 in live mode on the idle fixture state. -/
theorem send_appends_one_user_entry_witness :
    ∃ rest : List ChatItem,
      (send envLive state0 none "id0" (NetResult.ok none)).1.messages
        = state0.messages
            ++ { role := Role.user, content := jsTrim ((none : Option String).getD state0.query) } :: rest ∧
      (∀ e ∈ rest, e.role = Role.assistant) ∧
      (send envLive state0 none "id0" (NetResult.ok none)).2.length = 1 :=
  send_appends_one_user_entry envLive state0 none "id0" (NetResult.ok none) (by decide) rfl

/-- C6: every transport failure of a live submit appends exactly one
assistant entry with an error payload, records the failure message (or the
generic fallback) in the ambient error slot, and leaves `busy` false. -/
theorem send_transport_failure (env : Settings) (s : AppState)
    (pq : Option String) (auditId msg : String)
    (htext : jsTrim (pq.getD s.query) ≠ "") (hbusy : s.busy = false)
    (hlive : env.demoMode = false) :
    (send env s pq auditId (NetResult.fail msg)).1.messages
      = s.messages ++ [{ role := Role.user, content := jsTrim (pq.getD s.query) }, errorEntry] ∧
    List.countP isErrorItem (send env s pq auditId (NetResult.fail msg)).1.messages
      = List.countP isErrorItem s.messages + 1 ∧
    (send env s pq auditId (NetResult.fail msg)).1.error = some (jsOrStr msg "Request failed") ∧
    (send env s pq auditId (NetResult.fail msg)).1.busy = false := by
  rw [send_live_fail_eq env s pq auditId msg htext hbusy hlive]
  refine ⟨by simp, ?_, rfl, rfl⟩
  simp [List.countP_append, List.countP_cons, isErrorItem, errorEntry]

/-- Witness for C6 at a simulated `HTTP 500` failure. -/
theorem send_transport_failure_witness :
    (send envLive state0 none "id0" (NetResult.fail "HTTP 500")).1.messages
      = state0.messages
          ++ [{ role := Role.user, content := jsTrim ((none : Option String).getD state0.query) }, errorEntry] ∧
    List.countP isErrorItem (send envLive state0 none "id0" (NetResult.fail "HTTP 500")).1.messages
      = List.countP isErrorItem state0.messages + 1 ∧
    (send envLive state0 none "id0" (NetResult.fail "HTTP 500")).1.error
      = some (jsOrStr "HTTP 500" "Request failed") ∧
    (send envLive state0 none "id0" (NetResult.fail "HTTP 500")).1.busy = false :=
  send_transport_failure envLive state0 none "id0" "HTTP 500" (by decide) rfl rfl

/-- C3 counterexample: in demo mode the "show steps" follow-up entry is
appended as well — here a demo-mode submit of "hello" ends with the
synthetic summary prompt — so the follow-up is not limited to live
navigator responses. -/
theorem send_demo_followup_counterexample :
    env0.demoMode = true ∧
    (send env0 state0 none "id0" (NetResult.ok none)).1.messages.getLast?
      = some summaryPromptEntry := by
  exact ⟨rfl, by decide⟩

/-- C3 amended: after a successful submit the follow-up entry is appended
exactly when the rendered response payload — the demo responder's payload in
demo mode, the live body otherwise — has kind `navigator`, with no
live-versus-demo distinction. -/
theorem send_success_followup (env : Settings) (s : AppState)
    (pq : Option String) (auditId : String) (data : Option Payload)
    (htext : jsTrim (pq.getD s.query) ≠ "") (hbusy : s.busy = false) :
    (send env s pq auditId (NetResult.ok data)).1.messages
      = s.messages
        ++ [{ role := Role.user, content := jsTrim (pq.getD s.query) },
            { role := Role.assistant,
              content := formatAssistantText (respOf env (jsTrim (pq.getD s.query)) auditId data),
              payload := respOf env (jsTrim (pq.getD s.query)) auditId data }]
        ++ (if kindOf (respOf env (jsTrim (pq.getD s.query)) auditId data) = some "navigator"
            then [summaryPromptEntry] else []) := by
  cases hd : env.demoMode with
  | true =>
    rw [send_demo_eq env s pq auditId (NetResult.ok data) htext hbusy hd]
    simp [respOf, hd, successEntries]
  | false =>
    rw [send_live_ok_eq env s pq auditId data htext hbusy hd]
    simp [respOf, hd, successEntries]

/-- Witness for the amended C3 on a live navigator response. -/
theorem send_success_followup_witness :
    (send envLive state0 none "id0" (NetResult.ok (some { kind := "navigator" }))).1.messages
      = state0.messages
        ++ [{ role := Role.user, content := jsTrim ((none : Option String).getD state0.query) },
            { role := Role.assistant,
              content := formatAssistantText
                (respOf envLive (jsTrim ((none : Option String).getD state0.query)) "id0"
                  (some { kind := "navigator" })),
              payload := respOf envLive (jsTrim ((none : Option String).getD state0.query)) "id0"
                (some { kind := "navigator" }) }]
        ++ (if kindOf (respOf envLive (jsTrim ((none : Option String).getD state0.query)) "id0"
              (some { kind := "navigator" })) = some "navigator"
            then [summaryPromptEntry] else []) :=
  send_success_followup envLive state0 none "id0" (some { kind := "navigator" }) (by decide) rfl

/-- Witness for the amended C2 at a forced `trustbot` preference. -/
theorem mockResponse_routing_witness :
    ((mockResponseP2 "hello" PipelinePref.trustbot "id0" "t0").kind
       = if PipelinePref.trustbot = PipelinePref.trustbot ∨ aggMatch "hello" = true
         then "trustbot" else "navigator") ∧
    (mockResponse "hello" "id0").kind = "navigator" :=
  mockResponse_routing "hello" PipelinePref.trustbot "id0" "t0"
